import Mathlib

/-!
Shallow embedding of the session-lifecycle and chat core of the
Softaims/recruitment-agent backend.

Conventions of the embedding:
* instants are `Nat` milliseconds (JS `Date` values); `new Date()` becomes an
  explicit `now : Nat` argument threaded into each operation;
* the durable Session Store (Prisma/PostgreSQL `sessions` table) is a
  `List Session`; the message store is a `List ConversationMessage`;
* opaque JSON blobs (`context`, `metadata`) are opaque `String`s, with `""`
  standing for the empty object literal the source uses as default;
* Redis is a key-value list plus a `broken` flag; when `broken` every Redis
  command raises, which models total cache unavailability (the service wraps
  every cache command in try/catch, embedded here as a `match` on `Except`);
* a thrown `CustomException` becomes an `Except.error`; server-assigned ids
  are passed in as explicit `newId` arguments.
-/

inductive SessionStatus where
  | ACTIVE
  | INACTIVE
  | EXPIRED
deriving DecidableEq, Repr

structure Session where
  id : String
  userId : String
  status : SessionStatus
  context : String
  createdAt : Nat
  lastActivity : Nat
  expiresAt : Nat
deriving DecidableEq, Repr

inductive MessageRole where
  | USER
  | ASSISTANT
  | SYSTEM
deriving DecidableEq, Repr

structure ConversationMessage where
  id : String
  sessionId : String
  role : MessageRole
  content : String
  metadata : String
  timestamp : Nat
deriving DecidableEq, Repr

/-- Error value thrown by the backend; mirrors `CustomException` in
src/common/exceptions/custom.exception.ts (code, message, HTTP status). -/
structure CustomException where
  code : String
  message : String
  httpStatus : Nat
deriving DecidableEq, Repr

/-- CustomException.new: BAD_REQUEST (400) with a caller-chosen code. -/
def CustomException.new (code message : String) : CustomException :=
  ⟨code, message, 400⟩

/-- CustomException.notFound: code NOT_FOUND, HTTP 404.  Note that
`Assert.notNull` in src/common/utils/assert.util.ts always throws this,
ignoring its `code` parameter. -/
def CustomException.notFound (message : String) : CustomException :=
  ⟨"NOT_FOUND", message, 404⟩

/-- Prisma raises P2025 when `update`/`delete`/`connect` targets a missing
record; the services do not catch it, so it surfaces unclassified. -/
def prismaRecordNotFound : CustomException :=
  ⟨"P2025", "Record not found", 500⟩

/-- Configuration block read by SessionsService from app config
(defaults 24 / 3600 / 10 / 60 in sessions.service.ts). -/
structure SessionConfig where
  defaultExpirationHours : Nat
  cacheExpirationSeconds : Nat
  maxActiveSessions : Nat
  cleanupIntervalMinutes : Nat
deriving Repr

def defaultSessionConfig : SessionConfig :=
  { defaultExpirationHours := 24
    cacheExpirationSeconds := 3600
    maxActiveSessions := 10
    cleanupIntervalMinutes := 60 }

/-- One hour in milliseconds; `expiration.setHours(+h)` adds `h * hourMs`. -/
def hourMs : Nat := 3600000

/- ------------------------------------------------------------------ -/
/- SessionRepository (src/database/repositories/session.repository.ts) -/
/- ------------------------------------------------------------------ -/

def SessionRepository.findById (db : List Session) (id : String) : Option Session :=
  db.find? (fun s => s.id == id)

/-- Optional-field update document, as accepted by `prisma.session.update`. -/
structure SessionUpdateInput where
  status : Option SessionStatus := none
  context : Option String := none
  expiresAt : Option Nat := none
  lastActivity : Option Nat := none
deriving Repr

def applySessionUpdate (u : SessionUpdateInput) (s : Session) : Session :=
  { s with
    status := u.status.getD s.status
    context := u.context.getD s.context
    expiresAt := u.expiresAt.getD s.expiresAt
    lastActivity := u.lastActivity.getD s.lastActivity }

/-- `prisma.session.update({ where: { id }, data })`: raises P2025 when the
row is absent, otherwise rewrites the row and returns it. -/
def SessionRepository.update (db : List Session) (id : String)
    (u : SessionUpdateInput) : Except CustomException (Session × List Session) :=
  match SessionRepository.findById db id with
  | none => .error prismaRecordNotFound
  | some s =>
    let s' := applySessionUpdate u s
    .ok (s', db.map (fun t => if t.id == id then s' else t))

/-- `updateLastActivity`: sets only `lastActivity` to `new Date()`. -/
def SessionRepository.updateLastActivity (db : List Session) (id : String)
    (now : Nat) : Except CustomException (Session × List Session) :=
  SessionRepository.update db id { lastActivity := some now }

/-- Ordering used by `findActiveByUserId`: `orderBy lastActivity desc`. -/
def byActivityDesc (a b : Session) : Prop :=
  b.lastActivity ≤ a.lastActivity

instance : DecidableRel byActivityDesc :=
  fun a b => inferInstanceAs (Decidable (b.lastActivity ≤ a.lastActivity))

instance : IsTotal Session byActivityDesc :=
  ⟨fun a b => (Nat.le_total b.lastActivity a.lastActivity).imp id id⟩

instance : IsTrans Session byActivityDesc :=
  ⟨fun _ _ _ hab hbc => Nat.le_trans hbc hab⟩

/-- `findActiveByUserId`: rows with this owner, status ACTIVE and
`expiresAt > now`, sorted by `lastActivity` descending. -/
def SessionRepository.findActiveByUserId (db : List Session) (userId : String)
    (now : Nat) : List Session :=
  List.insertionSort byActivityDesc
    (db.filter (fun s =>
      s.userId == userId && decide (s.status = SessionStatus.ACTIVE)
        && decide (now < s.expiresAt)))

/-- `findExpiredSessions`: rows with `expiresAt < now` whose status is NOT
EXPIRED (this includes INACTIVE rows, not only ACTIVE ones). -/
def SessionRepository.findExpiredSessions (db : List Session) (now : Nat) :
    List Session :=
  db.filter (fun s =>
    decide (s.expiresAt < now) && decide (s.status ≠ SessionStatus.EXPIRED))

/-- `markExpired`: `updateMany` setting status EXPIRED on the given ids. -/
def SessionRepository.markExpired (db : List Session) (ids : List String) :
    List Session :=
  db.map (fun s =>
    if ids.contains s.id then { s with status := SessionStatus.EXPIRED } else s)

def SessionRepository.delete (db : List Session) (id : String) :
    Except CustomException (List Session) :=
  match SessionRepository.findById db id with
  | none => .error prismaRecordNotFound
  | some _ => .ok (db.filter (fun s => !(s.id == id)))

/- ------------------------------------------------------------------ -/
/- RedisService (src/database/redis.service.ts) and the cached shape   -/
/- ------------------------------------------------------------------ -/

/-- Denormalized projection written to the cache (`SessionCacheData` in
src/modules/sessions/types/session.types.ts); the JSON serialization
round-trip is embedded as the identity on this record. -/
structure SessionCacheData where
  id : String
  userId : String
  status : SessionStatus
  context : String
  lastActivity : Nat
  expiresAt : Nat
deriving DecidableEq, Repr

/-- Redis state: entries plus a `broken` flag; when `broken` every command
raises, modelling an unavailable cache. -/
structure Redis where
  entries : List (String × SessionCacheData)
  broken : Bool
deriving DecidableEq, Repr

def Redis.get (r : Redis) (key : String) :
    Except Unit (Option SessionCacheData) :=
  if r.broken then .error ()
  else .ok ((r.entries.find? (fun p => p.1 == key)).map (·.2))

def Redis.set (r : Redis) (key : String) (v : SessionCacheData) :
    Except Unit Redis :=
  if r.broken then .error ()
  else .ok { r with entries := (key, v) :: r.entries.filter (fun p => !(p.1 == key)) }

def Redis.del (r : Redis) (key : String) : Except Unit Redis :=
  if r.broken then .error ()
  else .ok { r with entries := r.entries.filter (fun p => !(p.1 == key)) }

/- ------------------------------------------------------------------ -/
/- SessionsService (src/modules/sessions/sessions.service.ts)          -/
/- ------------------------------------------------------------------ -/

def SessionsService.getCacheKey (sessionId : String) : String :=
  "session:" ++ sessionId

def Session.toCacheData (s : Session) : SessionCacheData :=
  ⟨s.id, s.userId, s.status, s.context, s.lastActivity, s.expiresAt⟩

/-- `cacheSession`: redis SET inside try/catch — a failure is logged and
swallowed, leaving the cache untouched. -/
def SessionsService.cacheSession (r : Redis) (s : Session) : Redis :=
  match r.set (SessionsService.getCacheKey s.id) s.toCacheData with
  | .ok r' => r'
  | .error _ => r

/-- `removeCachedSession`: redis DEL inside try/catch. -/
def SessionsService.removeCachedSession (r : Redis) (sessionId : String) : Redis :=
  match r.del (SessionsService.getCacheKey sessionId) with
  | .ok r' => r'
  | .error _ => r

/-- `getCachedSession`: reads and validates the cache entry but, by the
explicit `return null` in the source ("return null to force DB lookup"),
never produces a session; a stale entry is deleted on the way. -/
def SessionsService.getCachedSession (now : Nat) (r : Redis)
    (sessionId : String) : Option Session × Redis :=
  match r.get (SessionsService.getCacheKey sessionId) with
  | .error _ => (none, r)
  | .ok none => (none, r)
  | .ok (some d) =>
    if d.expiresAt < now then
      (none, SessionsService.removeCachedSession r sessionId)
    else
      (none, r)

/-- `isSessionExpired`: `new Date() > session.expiresAt`. -/
def SessionsService.isSessionExpired (now : Nat) (s : Session) : Bool :=
  decide (s.expiresAt < now)

/-- `expireSession`: set status EXPIRED in the store (P2025 if absent),
then drop the cache entry. -/
def SessionsService.expireSession (db : List Session) (r : Redis)
    (sessionId : String) : Except CustomException Unit × List Session × Redis :=
  match SessionRepository.update db sessionId
      { status := some SessionStatus.EXPIRED } with
  | .error e => (.error e, db, r)
  | .ok (_, db') => (.ok (), db', SessionsService.removeCachedSession r sessionId)

/-- `getSession`: cache probe (always a miss by `getCachedSession`), then
store lookup; a stale row is expired and reported as not-found; a live row
is re-cached and returned. -/
def SessionsService.getSession (now : Nat) (db : List Session) (r : Redis)
    (sessionId : String) :
    Except CustomException (Option Session) × List Session × Redis :=
  let gc := SessionsService.getCachedSession now r sessionId
  match gc.1 with
  | some c => (.ok (some c), db, gc.2)
  | none =>
    match SessionRepository.findById db sessionId with
    | none => (.ok none, db, gc.2)
    | some s =>
      if SessionsService.isSessionExpired now s then
        let ex := SessionsService.expireSession db gc.2 sessionId
        match ex.1 with
        | .error e => (.error e, ex.2.1, ex.2.2)
        | .ok _ => (.ok none, ex.2.1, ex.2.2)
      else
        (.ok (some s), db, SessionsService.cacheSession gc.2 s)

/-- `updateSessionActivity`: persist `lastActivity := now` and refresh the
cache entry with the updated row. -/
def SessionsService.updateSessionActivity (now : Nat) (db : List Session)
    (r : Redis) (sessionId : String) :
    Except CustomException Session × List Session × Redis :=
  match SessionRepository.updateLastActivity db sessionId now with
  | .error e => (.error e, db, r)
  | .ok (s, db') => (.ok s, db', SessionsService.cacheSession r s)

/-- `updateSessionContext`: full replace of the context blob, cache refresh. -/
def SessionsService.updateSessionContext (db : List Session) (r : Redis)
    (sessionId : String) (context : String) :
    Except CustomException Session × List Session × Redis :=
  match SessionRepository.update db sessionId { context := some context } with
  | .error e => (.error e, db, r)
  | .ok (s, db') => (.ok s, db', SessionsService.cacheSession r s)

/-- `deleteSession`: hard delete plus cache drop. -/
def SessionsService.deleteSession (db : List Session) (r : Redis)
    (sessionId : String) :
    Except CustomException Unit × List Session × Redis :=
  match SessionRepository.delete db sessionId with
  | .error e => (.error e, db, r)
  | .ok db' => (.ok (), db', SessionsService.removeCachedSession r sessionId)

structure CreateSessionDto where
  context : Option String := none
  expiresAt : Option Nat := none
deriving Repr

/-- `calculateDefaultExpiration`: now plus `defaultExpirationHours` hours. -/
def SessionsService.calculateDefaultExpiration (cfg : SessionConfig)
    (now : Nat) : Nat :=
  now + cfg.defaultExpirationHours * hourMs

/-- `createSession`: `Assert.notNull(userId)` (which throws NOT_FOUND, see
`CustomException.notFound`); per-owner cap check: when the owner's live
ACTIVE sessions reach `maxActiveSessions`, the last element of the
lastActivity-descending list (the least recently active) is force-expired;
then the new ACTIVE row is created with `expiresAt` from the dto or the
default, and cached.  The row's `createdAt`/`lastActivity` take the store
defaults CURRENT_TIMESTAMP. -/
def SessionsService.createSession (cfg : SessionConfig) (now : Nat)
    (db : List Session) (r : Redis) (userId : Option String)
    (data : Option CreateSessionDto) (newId : String) :
    Except CustomException Session × List Session × Redis :=
  match userId with
  | none => (.error (CustomException.notFound "User ID is required"), db, r)
  | some uid =>
    let active := SessionRepository.findActiveByUserId db uid now
    let step : Except CustomException (List Session × Redis) :=
      if cfg.maxActiveSessions ≤ active.length then
        match active.getLast? with
        | none =>
          .error (CustomException.new "TYPE_ERROR"
            "Cannot read properties of undefined")
        | some oldest =>
          let ex := SessionsService.expireSession db r oldest.id
          match ex.1 with
          | .error e => .error e
          | .ok _ => .ok (ex.2.1, ex.2.2)
      else .ok (db, r)
    match step with
    | .error e => (.error e, db, r)
    | .ok (db1, r1) =>
      let expiresAt := match data.bind (·.expiresAt) with
        | some e => e
        | none => SessionsService.calculateDefaultExpiration cfg now
      let s : Session :=
        { id := newId
          userId := uid
          status := SessionStatus.ACTIVE
          context := (data.bind (·.context)).getD ""
          createdAt := now
          lastActivity := now
          expiresAt := expiresAt }
      (.ok s, db1 ++ [s], SessionsService.cacheSession r1 s)

/-- `cleanupExpiredSessions`: find rows with past `expiresAt` and status not
EXPIRED, mark them EXPIRED in bulk, drop each cache entry, return the count. -/
def SessionsService.cleanupExpiredSessions (now : Nat) (db : List Session)
    (r : Redis) : Nat × List Session × Redis :=
  let expired := SessionRepository.findExpiredSessions db now
  if expired.isEmpty then (0, db, r)
  else
    let ids := expired.map (·.id)
    (expired.length, SessionRepository.markExpired db ids,
      ids.foldl SessionsService.removeCachedSession r)

/- ------------------------------------------------------------------ -/
/- ConversationRepository (src/modules/chat/conversation.repository.ts) -/
/- ------------------------------------------------------------------ -/

/-- `prisma.conversationMessage.create` with `session: connect`: raises
P2025 when the referenced session row is absent, otherwise appends a row
whose id and timestamp are server-assigned. -/
def ConversationRepository.create (msgs : List ConversationMessage)
    (db : List Session) (newId : String) (now : Nat) (sessionId : String)
    (role : MessageRole) (content : String) (metadata : String) :
    Except CustomException (ConversationMessage × List ConversationMessage) :=
  match SessionRepository.findById db sessionId with
  | none => .error prismaRecordNotFound
  | some _ =>
    let m : ConversationMessage :=
      { id := newId, sessionId := sessionId, role := role,
        content := content, metadata := metadata, timestamp := now }
    .ok (m, msgs ++ [m])

inductive ConversationOrder where
  | asc
  | desc
deriving DecidableEq, Repr

/-- Timestamp orderings used by `orderBy timestamp asc/desc`. -/
def byTimestampAsc (a b : ConversationMessage) : Prop :=
  a.timestamp ≤ b.timestamp

instance : DecidableRel byTimestampAsc :=
  fun a b => inferInstanceAs (Decidable (a.timestamp ≤ b.timestamp))

instance : IsTotal ConversationMessage byTimestampAsc :=
  ⟨fun a b => (Nat.le_total a.timestamp b.timestamp).imp id id⟩

instance : IsTrans ConversationMessage byTimestampAsc :=
  ⟨fun _ _ _ hab hbc => Nat.le_trans hab hbc⟩

def byTimestampDesc (a b : ConversationMessage) : Prop :=
  b.timestamp ≤ a.timestamp

instance : DecidableRel byTimestampDesc :=
  fun a b => inferInstanceAs (Decidable (b.timestamp ≤ a.timestamp))

instance : IsTotal ConversationMessage byTimestampDesc :=
  ⟨fun a b => (Nat.le_total b.timestamp a.timestamp).imp id id⟩

instance : IsTrans ConversationMessage byTimestampDesc :=
  ⟨fun _ _ _ hab hbc => Nat.le_trans hbc hab⟩

/-- `findRecentBySessionId`: newest `limit` messages of the session. -/
def ConversationRepository.findRecentBySessionId
    (msgs : List ConversationMessage) (sessionId : String) (limit : Nat) :
    List ConversationMessage :=
  (List.insertionSort byTimestampDesc
    (msgs.filter (fun m => m.sessionId == sessionId))).take limit

/-- Options accepted by `listBySession`; `page`/`pageSize` are raw caller
integers (JS numbers, possibly zero or negative). -/
structure ListMessagesOptions where
  page : Option Int := none
  pageSize : Option Int := none
  ord : Option ConversationOrder := none
deriving Repr

structure PaginatedResult where
  items : List ConversationMessage
  total : Nat
  page : Int
  pageSize : Int
  hasNext : Bool
  hasPrev : Bool
deriving DecidableEq, Repr

/-- `listBySession`: page is floored at 1, pageSize clamped into 1..200,
items are the requested window of the timestamp-sorted session messages,
`hasNext` is `page * pageSize < total`, `hasPrev` is `page > 1`. -/
def ConversationRepository.listBySession (msgs : List ConversationMessage)
    (sessionId : String) (options : ListMessagesOptions) : PaginatedResult :=
  let page : Int := max 1 (options.page.getD 1)
  let rawSize : Int := options.pageSize.getD 50
  let pageSize : Int := max 1 (min 200 rawSize)
  let inSession := msgs.filter (fun m => m.sessionId == sessionId)
  let sorted := match options.ord.getD ConversationOrder.asc with
    | ConversationOrder.asc => List.insertionSort byTimestampAsc inSession
    | ConversationOrder.desc => List.insertionSort byTimestampDesc inSession
  { items := (sorted.drop ((page - 1) * pageSize).toNat).take pageSize.toNat
    total := inSession.length
    page := page
    pageSize := pageSize
    hasNext := decide (page * pageSize < (inSession.length : Int))
    hasPrev := decide (1 < page) }

/- ------------------------------------------------------------------ -/
/- Assert (src/common/utils/assert.util.ts)                            -/
/- ------------------------------------------------------------------ -/

/-- Embedding of JS `String.prototype.trim()`: strips leading and trailing
whitespace.  Lean's own `String.trim` is extensionally the same but is not
kernel-reducible, so the embedding uses this structural definition. -/
def jsTrim (s : String) : String :=
  ⟨((s.data.dropWhile (fun c => c == ' ' || c == '\t' || c == '\n' || c == '\r')).reverse.dropWhile
      (fun c => c == ' ' || c == '\t' || c == '\n' || c == '\r')).reverse⟩

/-- `Assert.notNull`: throws `CustomException.notFound(message)` when the
value is null/undefined (the `code` parameter is ignored by the source). -/
def Assert.notNull {α : Type} (value : Option α) (message : String) :
    Except CustomException α :=
  match value with
  | none => .error (CustomException.notFound message)
  | some v => .ok v

/-- Modelled from the spec: `Assert.notEmpty` is invoked by
`ConversationService.appendMessage` (conversation.service.ts line 28) but no
definition of `notEmpty` exists in src/common/utils/assert.util.ts; the spec
says appendMessage "validates `content` is non-empty after trimming (fails
`InvalidArgument` otherwise)", so it is embedded as a BAD_REQUEST-class
rejection of whitespace-only content. -/
def Assert.notEmpty (value : String) (message : String) :
    Except CustomException Unit :=
  if jsTrim value = "" then .error (CustomException.new "INVALID_ARGUMENT" message)
  else .ok ()

/- ------------------------------------------------------------------ -/
/- ConversationService (src/modules/chat/conversation.service.ts)      -/
/- ------------------------------------------------------------------ -/

structure AppendMessageParams where
  sessionId : String
  content : String
  role : MessageRole
  metadata : Option String := none
deriving Repr

/-- `appendMessage`: null-checks (vacuous on the embedded non-null fields),
`Assert.notEmpty` on the content, then persists the TRIMMED content.  Note
the source performs no session-liveness check here and no activity bump. -/
def ConversationService.appendMessage (params : AppendMessageParams)
    (msgs : List ConversationMessage) (db : List Session) (newId : String)
    (now : Nat) :
    Except CustomException ConversationMessage × List ConversationMessage :=
  match Assert.notEmpty params.content "Message content must not be empty" with
  | .error e => (.error e, msgs)
  | .ok _ =>
    match ConversationRepository.create msgs db newId now params.sessionId
        params.role (jsTrim params.content) (params.metadata.getD "") with
    | .error e => (.error e, msgs)
    | .ok (m, msgs') => (.ok m, msgs')

/- ------------------------------------------------------------------ -/
/- ChatService (source appended to src/modules/chat/README.md)         -/
/- ------------------------------------------------------------------ -/

structure ChatMessageDto where
  sessionId : String
  content : String
  role : MessageRole
  metadata : Option String := none
deriving Repr

/-- `processMessage`: null-checks only (no trim validation), `getSession`
with `Assert.notNull(session, 'Session not found or expired')`, activity
bump, then persists the content UNTRIMMED. -/
def ChatService.processMessage (payload : ChatMessageDto) (now : Nat)
    (db : List Session) (r : Redis) (msgs : List ConversationMessage)
    (newId : String) :
    Except CustomException ConversationMessage × List Session × Redis
      × List ConversationMessage :=
  let gs := SessionsService.getSession now db r payload.sessionId
  match gs.1 with
  | .error e => (.error e, gs.2.1, gs.2.2, msgs)
  | .ok none =>
    (.error (CustomException.notFound "Session not found or expired"),
      gs.2.1, gs.2.2, msgs)
  | .ok (some _) =>
    let ua := SessionsService.updateSessionActivity now gs.2.1 gs.2.2
      payload.sessionId
    match ua.1 with
    | .error e => (.error e, ua.2.1, ua.2.2, msgs)
    | .ok _ =>
      match ConversationRepository.create msgs ua.2.1 newId now
          payload.sessionId payload.role payload.content
          (payload.metadata.getD "") with
      | .error e => (.error e, ua.2.1, ua.2.2, msgs)
      | .ok (m, msgs') => (.ok m, ua.2.1, ua.2.2, msgs')

/-- `getRecentMessages`: validates the session through `getSession`, then
returns the newest `limit` messages. -/
def ChatService.getRecentMessages (now : Nat) (db : List Session) (r : Redis)
    (sessionId : String) (limit : Nat) (msgs : List ConversationMessage) :
    Except CustomException (List ConversationMessage) × List Session × Redis :=
  let gs := SessionsService.getSession now db r sessionId
  match gs.1 with
  | .error e => (.error e, gs.2.1, gs.2.2)
  | .ok none =>
    (.error (CustomException.notFound "Session not found or expired"),
      gs.2.1, gs.2.2)
  | .ok (some _) =>
    (.ok (ConversationRepository.findRecentBySessionId msgs sessionId limit),
      gs.2.1, gs.2.2)

/- ------------------------------------------------------------------ -/
/- ChatGateway (src/modules/chat/chat.gateway.ts)                      -/
/- ------------------------------------------------------------------ -/

structure ChatConnectionData where
  userId : String
  connectedAt : Nat
  sessionId : Option String := none
deriving DecidableEq, Repr

/-- One socket.io emission; `toRoom` distinguishes a room broadcast from an
emit to a single client, `message` carries the salient payload (the error
reason, the joined session id, or the joining user id). -/
structure Emit where
  target : String
  toRoom : Bool
  event : String
  message : String
deriving DecidableEq, Repr

/-- Gateway in-memory state: the `connections` map keyed by client id, and
socket.io room membership as (clientId, room) pairs. -/
structure GatewayState where
  connections : List (String × ChatConnectionData)
  rooms : List (String × String)
deriving DecidableEq, Repr

def roomName (sessionId : String) : String := "session:" ++ sessionId

def errorEmit (clientId message : String) : Emit :=
  { target := clientId, toRoom := false, event := "error", message := message }

/-- `handleJoinSession`: authenticated-connection lookup, `getSession`,
owner check, then leave-previous/join-new room, activity bump, recent
history, confirmation and room notification.  Every thrown error is caught
and emitted as an `error` event to the calling client only; the handler
never disconnects.  Result: new gateway state, store, cache, emissions, and
the (always empty) list of server-initiated disconnects. -/
def ChatGateway.handleJoinSession (clientId : String) (sessionId : String)
    (now : Nat) (st : GatewayState) (db : List Session) (r : Redis)
    (msgs : List ConversationMessage) :
    GatewayState × List Session × Redis × List Emit × List String :=
  match (st.connections.find? (fun p => p.1 == clientId)).map (·.2) with
  | none => (st, db, r, [errorEmit clientId "Connection not authenticated"], [])
  | some conn =>
    let gs := SessionsService.getSession now db r sessionId
    match gs.1 with
    | .error e => (st, gs.2.1, gs.2.2, [errorEmit clientId e.message], [])
    | .ok none =>
      (st, gs.2.1, gs.2.2,
        [errorEmit clientId "Session not found or expired"], [])
    | .ok (some s) =>
      if s.userId ≠ conn.userId then
        (st, gs.2.1, gs.2.2, [errorEmit clientId "Access denied to session"], [])
      else
        let rooms1 := match conn.sessionId with
          | some prev =>
            st.rooms.filter (fun p => !(p.1 == clientId && p.2 == roomName prev))
          | none => st.rooms
        let rooms2 :=
          if (clientId, roomName sessionId) ∈ rooms1 then rooms1
          else (clientId, roomName sessionId) :: rooms1
        let st1 : GatewayState :=
          { connections := st.connections.map (fun p =>
              if p.1 == clientId then (p.1, { p.2 with sessionId := some sessionId })
              else p)
            rooms := rooms2 }
        let ua := SessionsService.updateSessionActivity now gs.2.1 gs.2.2 sessionId
        match ua.1 with
        | .error e => (st1, ua.2.1, ua.2.2, [errorEmit clientId e.message], [])
        | .ok _ =>
          let rm := ChatService.getRecentMessages now ua.2.1 ua.2.2 sessionId 10 msgs
          match rm.1 with
          | .error e => (st1, rm.2.1, rm.2.2, [errorEmit clientId e.message], [])
          | .ok _ =>
            (st1, rm.2.1, rm.2.2,
              [ { target := clientId, toRoom := false,
                  event := "session_joined", message := sessionId },
                { target := roomName sessionId, toRoom := true,
                  event := "user_joined", message := conn.userId } ], [])

/- ------------------------------------------------------------------ -/
/- Concrete fixtures for counterexamples and witnesses                 -/
/- ------------------------------------------------------------------ -/

def emptyRedis : Redis := { entries := [], broken := false }

def c1Session : Session :=
  { id := "s1", userId := "u1", status := SessionStatus.EXPIRED, context := "",
    createdAt := 0, lastActivity := 0, expiresAt := 1000 }

def c1PastSession : Session :=
  { id := "s9", userId := "u1", status := SessionStatus.EXPIRED, context := "",
    createdAt := 0, lastActivity := 0, expiresAt := 5 }

def c2Session : Session :=
  { id := "s2", userId := "u1", status := SessionStatus.ACTIVE, context := "",
    createdAt := 0, lastActivity := 0, expiresAt := 500 }

/- ------------------------------------------------------------------ -/
/- Concrete fixtures for counterexamples and witnesses                 -/
/- ------------------------------------------------------------------ -/

/-- Expiration config with a one-hour inactivity window, used to replay the
spec scenario "create, wait past the window, read". -/
def c3Config : SessionConfig :=
  { defaultExpirationHours := 1, cacheExpirationSeconds := 3600,
    maxActiveSessions := 10, cleanupIntervalMinutes := 60 }

def c3CreatedDb : List Session :=
  (SessionsService.createSession c3Config 0 [] emptyRedis (some "u1") none "s1").2.1

def c5Session : Session :=
  { id := "s5", userId := "u1", status := SessionStatus.ACTIVE, context := "",
    createdAt := 0, lastActivity := 0, expiresAt := 1000 }

def c6Session : Session :=
  { id := "s6", userId := "u1", status := SessionStatus.INACTIVE, context := "",
    createdAt := 0, lastActivity := 0, expiresAt := 5 }

def w4Config : SessionConfig :=
  { defaultExpirationHours := 24, cacheExpirationSeconds := 3600,
    maxActiveSessions := 1, cleanupIntervalMinutes := 60 }

def w4Session : Session :=
  { id := "a1", userId := "u1", status := SessionStatus.ACTIVE, context := "",
    createdAt := 0, lastActivity := 0, expiresAt := 1000 }

def w8State : GatewayState :=
  { connections := [("c1", { userId := "u2", connectedAt := 0, sessionId := none })],
    rooms := [("c1", roomName "other")] }


/- ------------------------------------------------------------------ -/
/- Helper lemmas                                                       -/
/- ------------------------------------------------------------------ -/

theorem getCachedSession_fst (now : Nat) (r : Redis) (sessionId : String) :
    (SessionsService.getCachedSession now r sessionId).1 = none := by
  unfold SessionsService.getCachedSession
  rcases r.get (SessionsService.getCacheKey sessionId) with _ | (_ | d)
  · rfl
  · rfl
  · by_cases hd : d.expiresAt < now <;> simp [hd]

theorem findById_map_of_id_preserved (db : List Session) (g : Session → Session)
    (hid : ∀ t, (g t).id = t.id) (id : String) :
    SessionRepository.findById (db.map g) id =
      (SessionRepository.findById db id).map g := by
  unfold SessionRepository.findById
  rw [List.find?_map]
  have hfun : ((fun s : Session => s.id == id) ∘ g) = (fun s : Session => s.id == id) := by
    funext t
    simp [Function.comp, hid]
  rw [hfun]

theorem findById_of_mem_nodup (db : List Session) (s : Session)
    (hmem : s ∈ db) (hnodup : (db.map (·.id)).Nodup) :
    SessionRepository.findById db s.id = some s := by
  unfold SessionRepository.findById
  induction db with
  | nil => cases hmem
  | cons a rest ih =>
    rw [List.map_cons, List.nodup_cons] at hnodup
    rcases List.mem_cons.mp hmem with rfl | hmem'
    · simp [List.find?]
    · have hne : (a.id == s.id) = false := by
        rw [beq_eq_false_iff_ne]
        intro h
        exact hnodup.1 (h ▸ List.mem_map_of_mem (·.id) hmem')
      rw [List.find?_cons, hne]
      exact ih hmem' hnodup.2

theorem findById_eq_none_of_fresh (db : List Session) (id : String)
    (hfresh : ∀ t ∈ db, t.id ≠ id) :
    SessionRepository.findById db id = none := by
  unfold SessionRepository.findById
  exact List.find?_eq_none.mpr (fun t ht => by
    simpa using hfresh t ht)

/-- The replacement function used by `SessionRepository.update` preserves
ids, provided the found row's id matches the queried id (always true for
rows returned by `findById`). -/
theorem update_replace_preserves_id (id : String) (s' : Session)
    (hid : s'.id = id) (t : Session) :
    ((fun t => if t.id == id then s' else t) t).id = t.id := by
  by_cases h : t.id = id
  · simp [h, hid]
  · simp [h]

theorem findById_id_eq (db : List Session) (id : String) (s : Session)
    (h : SessionRepository.findById db id = some s) : s.id = id := by
  have := List.find?_some h
  simpa using this

theorem rel_of_pairwise_getLast? {α : Type} {r : α → α → Prop} :
    ∀ (l : List α) (y : α), l.Pairwise r → l.getLast? = some y →
      ∀ x ∈ l, x = y ∨ r x y := by
  intro l
  induction l with
  | nil => intro y _ h; cases h
  | cons a rest ih =>
    intro y hp hy x hx
    cases hrest : rest with
    | nil =>
      subst hrest
      have hay : a = y := by simpa using hy
      rcases List.mem_singleton.mp hx with rfl
      exact Or.inl hay
    | cons b t =>
      subst hrest
      have hy' : (b :: t).getLast? = some y := by
        rw [← List.getLast?_cons_cons (l := t)]
        exact hy
      rcases List.mem_cons.mp hx with rfl | hx'
      · right
        exact (List.pairwise_cons.mp hp).1 _ (List.mem_of_getLast?_eq_some hy')
      · exact ih y (List.pairwise_cons.mp hp).2 hy' x hx'

theorem active_getLast?_minimal (db : List Session) (uid : String) (now : Nat)
    (oldest : Session)
    (h : (SessionRepository.findActiveByUserId db uid now).getLast? = some oldest) :
    ∀ x ∈ SessionRepository.findActiveByUserId db uid now,
      oldest.lastActivity ≤ x.lastActivity := by
  intro x hx
  have hp : (SessionRepository.findActiveByUserId db uid now).Pairwise byActivityDesc :=
    List.sorted_insertionSort byActivityDesc _
  rcases rel_of_pairwise_getLast? _ oldest hp h x hx with rfl | hrel
  · exact Nat.le_refl _
  · exact hrel

theorem mem_active_props (db : List Session) (uid : String) (now : Nat)
    (s : Session) (hs : s ∈ SessionRepository.findActiveByUserId db uid now) :
    s ∈ db ∧ s.userId = uid ∧ s.status = SessionStatus.ACTIVE ∧ now < s.expiresAt := by
  unfold SessionRepository.findActiveByUserId at hs
  have hs' := (List.perm_insertionSort byActivityDesc _).mem_iff.mp hs
  have := List.mem_filter.mp hs'
  refine ⟨this.1, ?_, ?_, ?_⟩ <;>
    simpa using (by
      have h := this.2
      simp only [Bool.and_eq_true, beq_iff_eq, decide_eq_true_eq] at h
      first
        | exact h.1.1
        | exact h.1.2
        | exact h.2)

theorem removeCachedSession_broken (r : Redis) (id : String) :
    (SessionsService.removeCachedSession r id).broken = r.broken := by
  unfold SessionsService.removeCachedSession Redis.del
  by_cases h : r.broken <;> simp [h]

theorem cacheSession_broken (r : Redis) (s : Session) :
    (SessionsService.cacheSession r s).broken = r.broken := by
  unfold SessionsService.cacheSession Redis.set
  by_cases h : r.broken <;> simp [h]

theorem getCachedSession_snd_broken (now : Nat) (r : Redis) (id : String) :
    ((SessionsService.getCachedSession now r id).2).broken = r.broken := by
  unfold SessionsService.getCachedSession
  rcases r.get (SessionsService.getCacheKey id) with _ | (_ | d)
  · rfl
  · rfl
  · by_cases hd : d.expiresAt < now <;> simp [hd, removeCachedSession_broken]

theorem get_removeCachedSession_self (r : Redis) (id : String)
    (h : r.broken = false) :
    (SessionsService.removeCachedSession r id).get
      (SessionsService.getCacheKey id) = .ok none := by
  have hfind : List.find? (fun p => p.1 == SessionsService.getCacheKey id)
      (List.filter (fun p => !(p.1 == SessionsService.getCacheKey id)) r.entries) = none :=
    List.find?_eq_none.mpr (fun p hp => by
      have := (List.mem_filter.mp hp).2
      simpa using this)
  simp [SessionsService.removeCachedSession, Redis.del, Redis.get, h, hfind]

theorem get_cacheSession_self (r : Redis) (s : Session) (h : r.broken = false) :
    (SessionsService.cacheSession r s).get
      (SessionsService.getCacheKey s.id) = .ok (some s.toCacheData) := by
  unfold SessionsService.cacheSession Redis.set Redis.get
  simp [h, List.find?_cons]

theorem repoUpdate_of_found (db : List Session) (id : String) (s : Session)
    (u : SessionUpdateInput) (hfind : SessionRepository.findById db id = some s) :
    SessionRepository.update db id u =
      .ok (applySessionUpdate u s,
        db.map (fun t => if t.id == id then applySessionUpdate u s else t)) := by
  unfold SessionRepository.update
  rw [hfind]

theorem findById_after_replace (db : List Session) (id : String) (s s' : Session)
    (hfind : SessionRepository.findById db id = some s) (hid : s'.id = s.id) :
    SessionRepository.findById
      (db.map (fun t => if t.id == id then s' else t)) id = some s' := by
  have hsid : s.id = id := findById_id_eq db id s hfind
  have hp : ∀ t, ((fun t => if t.id == id then s' else t) t).id = t.id :=
    update_replace_preserves_id id s' (hid.trans hsid)
  rw [findById_map_of_id_preserved db _ hp id, hfind]
  simp [hsid]

theorem findById_after_replace_ne (db : List Session) (id id' : String)
    (s s' : Session) (hfind : SessionRepository.findById db id = some s)
    (hid : s'.id = s.id) (hne : id' ≠ id) :
    SessionRepository.findById
        (db.map (fun t => if t.id == id then s' else t)) id' =
      SessionRepository.findById db id' := by
  have hsid : s.id = id := findById_id_eq db id s hfind
  have hp := update_replace_preserves_id id s' (hid.trans hsid)
  rw [findById_map_of_id_preserved db _ hp id']
  cases hf : SessionRepository.findById db id' with
  | none => rfl
  | some t =>
    have ht : t.id = id' := findById_id_eq db id' t hf
    simp [ht, hne]

theorem findById_append (db1 db2 : List Session) (id : String) :
    SessionRepository.findById (db1 ++ db2) id =
      Option.or (SessionRepository.findById db1 id) (SessionRepository.findById db2 id) := by
  unfold SessionRepository.findById
  exact List.find?_append

theorem expireSession_of_found (db : List Session) (r : Redis) (id : String)
    (s : Session) (hfind : SessionRepository.findById db id = some s) :
    SessionsService.expireSession db r id =
      (.ok (),
       db.map (fun t => if t.id == id then { s with status := SessionStatus.EXPIRED } else t),
       SessionsService.removeCachedSession r id) := by
  unfold SessionsService.expireSession
  rw [repoUpdate_of_found db id s _ hfind]
  rfl

theorem getSession_not_found (now : Nat) (db : List Session) (r : Redis)
    (id : String) (hfind : SessionRepository.findById db id = none) :
    SessionsService.getSession now db r id =
      (.ok none, db, (SessionsService.getCachedSession now r id).2) := by
  unfold SessionsService.getSession
  simp only [getCachedSession_fst, hfind]

theorem getSession_found_live (now : Nat) (db : List Session) (r : Redis)
    (id : String) (s : Session)
    (hfind : SessionRepository.findById db id = some s)
    (hlive : SessionsService.isSessionExpired now s = false) :
    SessionsService.getSession now db r id =
      (.ok (some s), db,
       SessionsService.cacheSession (SessionsService.getCachedSession now r id).2 s) := by
  unfold SessionsService.getSession
  simp only [getCachedSession_fst, hfind, hlive, Bool.false_eq_true, if_false]

theorem getSession_found_expired (now : Nat) (db : List Session) (r : Redis)
    (id : String) (s : Session)
    (hfind : SessionRepository.findById db id = some s)
    (hexp : SessionsService.isSessionExpired now s = true) :
    SessionsService.getSession now db r id =
      (.ok none,
       db.map (fun t => if t.id == id then { s with status := SessionStatus.EXPIRED } else t),
       SessionsService.removeCachedSession (SessionsService.getCachedSession now r id).2 id) := by
  unfold SessionsService.getSession
  simp only [getCachedSession_fst, hfind, hexp, if_true,
    expireSession_of_found db _ id s hfind]

theorem updateSessionActivity_found (now : Nat) (db : List Session) (r : Redis)
    (id : String) (s : Session)
    (hfind : SessionRepository.findById db id = some s) :
    SessionsService.updateSessionActivity now db r id =
      (.ok { s with lastActivity := now },
       db.map (fun t => if t.id == id then { s with lastActivity := now } else t),
       SessionsService.cacheSession r { s with lastActivity := now }) := by
  unfold SessionsService.updateSessionActivity SessionRepository.updateLastActivity
  rw [repoUpdate_of_found db id s _ hfind]
  rfl

/- ------------------------------------------------------------------ -/
/- Claim theorems                                                      -/
/- ------------------------------------------------------------------ -/

/-- C10: the cache read inside getSession never serves a session —
`getCachedSession` returns null for every input (even a fresh cached entry),
so every non-null `getSession` result was read from the durable store by
`findById`; the cache is written and invalidated but never read through. -/
theorem C10_cache_read_never_serves (now : Nat) (db : List Session) (r : Redis)
    (sessionId : String) :
    (SessionsService.getCachedSession now r sessionId).1 = none ∧
    (∀ s : Session,
      (SessionsService.getSession now db r sessionId).1 = Except.ok (some s) →
        SessionRepository.findById db sessionId = some s) := by
  refine ⟨getCachedSession_fst now r sessionId, ?_⟩
  intro s h
  cases hf : SessionRepository.findById db sessionId with
  | none =>
    rw [getSession_not_found now db r sessionId hf] at h
    cases h
  | some t =>
    cases hexp : SessionsService.isSessionExpired now t with
    | false =>
      rw [getSession_found_live now db r sessionId t hf hexp] at h
      simp only [Except.ok.injEq, Option.some.injEq] at h
      exact congrArg some h
    | true =>
      rw [getSession_found_expired now db r sessionId t hf hexp] at h
      cases h

/-- C10 witness: with a fresh, unexpired entry in the cache, `getSession`
still returns the session straight from the store. -/
theorem C10_witness :
    SessionRepository.findById [c2Session] "s2" = some c2Session :=
  (C10_cache_read_never_serves 10 [c2Session]
      { entries := [(SessionsService.getCacheKey "s2", c2Session.toCacheData)],
        broken := false } "s2").2 c2Session rfl

/-- C9: listHistory clamps the effective pageSize to min 200 (max 1 requested)
(over-maximum requests are clamped, never rejected: the operation is total),
floors the effective page at 1, and sets hasNext iff page * pageSize < total
and hasPrev iff page > 1. -/
theorem C9_listHistory_pagination (msgs : List ConversationMessage)
    (sessionId : String) (options : ListMessagesOptions) :
    (ConversationRepository.listBySession msgs sessionId options).pageSize =
      min 200 (max 1 (options.pageSize.getD 50)) ∧
    (ConversationRepository.listBySession msgs sessionId options).page =
      max 1 (options.page.getD 1) ∧
    ((ConversationRepository.listBySession msgs sessionId options).hasNext = true ↔
      (ConversationRepository.listBySession msgs sessionId options).page *
          (ConversationRepository.listBySession msgs sessionId options).pageSize <
        ((ConversationRepository.listBySession msgs sessionId options).total : Int)) ∧
    ((ConversationRepository.listBySession msgs sessionId options).hasPrev = true ↔
      1 < (ConversationRepository.listBySession msgs sessionId options).page) := by
  unfold ConversationRepository.listBySession
  refine ⟨?_, rfl, ?_, ?_⟩
  · simp only []
    omega
  · simp [decide_eq_true_eq]
  · simp [decide_eq_true_eq]

/-- C3: a session found in the store with expiresAt in the past is, on
getSession, transitioned to durable status EXPIRED, its cache entry removed
(when the cache is reachable), and reported as not-found (null). -/
theorem C3_getSession_expires_stale (now : Nat) (db : List Session) (r : Redis)
    (sessionId : String) (s : Session)
    (hfind : SessionRepository.findById db sessionId = some s)
    (hpast : s.expiresAt < now) :
    (SessionsService.getSession now db r sessionId).1 = Except.ok none ∧
    SessionRepository.findById
        (SessionsService.getSession now db r sessionId).2.1 sessionId =
      some { s with status := SessionStatus.EXPIRED } ∧
    (r.broken = false →
      ((SessionsService.getSession now db r sessionId).2.2).get
        (SessionsService.getCacheKey sessionId) = Except.ok none) := by
  have hexp : SessionsService.isSessionExpired now s = true := decide_eq_true hpast
  rw [getSession_found_expired now db r sessionId s hfind hexp]
  refine ⟨rfl, findById_after_replace db sessionId s _ hfind rfl, ?_⟩
  intro hb
  have hb2 : ((SessionsService.getCachedSession now r sessionId).2).broken = false := by
    rw [getCachedSession_snd_broken]
    exact hb
  exact get_removeCachedSession_self _ sessionId hb2

/-- C3 witness: create a session with a 1-hour window at time 0, read it one
millisecond past the window — not-found is returned and the stored status is
EXPIRED. -/
theorem C3_witness :
    (SessionsService.getSession 3600001 c3CreatedDb emptyRedis "s1").1 =
      Except.ok none ∧
    SessionRepository.findById
        (SessionsService.getSession 3600001 c3CreatedDb emptyRedis "s1").2.1 "s1" =
      some { id := "s1", userId := "u1", status := SessionStatus.EXPIRED,
             context := "", createdAt := 0, lastActivity := 0,
             expiresAt := 3600000 } := by
  have h := C3_getSession_expires_stale 3600001 c3CreatedDb emptyRedis "s1"
    { id := "s1", userId := "u1", status := SessionStatus.ACTIVE, context := "",
      createdAt := 0, lastActivity := 0, expiresAt := 3600000 }
    rfl (by decide)
  exact ⟨h.1, h.2.1⟩

/-- C2 counterexample: bumping activity at time 10 on a session whose
deadline is 500 leaves expiresAt at 500, which is not now plus the
configured inactivity window — the deadline does not slide. -/
theorem C2_counterexample :
    (SessionsService.updateSessionActivity 10 [c2Session] emptyRedis "s2").1 =
      Except.ok { c2Session with lastActivity := 10 } ∧
    ({ c2Session with lastActivity := 10 } : Session).expiresAt = 500 ∧
    500 ≠ 10 + defaultSessionConfig.defaultExpirationHours * hourMs := by
  refine ⟨rfl, rfl, by decide⟩

/-- C2 (amended): updateSessionActivity sets lastActivity to now, persists
it to the store, and refreshes the cache entry (when the cache is
reachable); expiresAt is left unchanged rather than recomputed. -/
theorem C2_touch_updates_lastActivity_only (now : Nat) (db : List Session)
    (r : Redis) (sessionId : String) (s : Session)
    (hfind : SessionRepository.findById db sessionId = some s) :
    (SessionsService.updateSessionActivity now db r sessionId).1 =
      Except.ok { s with lastActivity := now } ∧
    SessionRepository.findById
        (SessionsService.updateSessionActivity now db r sessionId).2.1 sessionId =
      some { s with lastActivity := now } ∧
    ({ s with lastActivity := now } : Session).expiresAt = s.expiresAt ∧
    (r.broken = false →
      ((SessionsService.updateSessionActivity now db r sessionId).2.2).get
        (SessionsService.getCacheKey sessionId) =
        Except.ok (some ({ s with lastActivity := now } : Session).toCacheData)) := by
  have hsid : s.id = sessionId := findById_id_eq db sessionId s hfind
  rw [updateSessionActivity_found now db r sessionId s hfind]
  refine ⟨rfl, findById_after_replace db sessionId s _ hfind rfl, rfl, ?_⟩
  intro hb
  rw [← hsid]
  exact get_cacheSession_self r { s with lastActivity := now } hb

/-- C2 witness. -/
theorem C2_witness :
    (SessionsService.updateSessionActivity 10 [c2Session] emptyRedis "s2").1 =
      Except.ok { c2Session with lastActivity := 10 } ∧
    ({ c2Session with lastActivity := 10 } : Session).expiresAt = c2Session.expiresAt :=
  let h := C2_touch_updates_lastActivity_only 10 [c2Session] emptyRedis "s2" c2Session rfl
  ⟨h.1, h.2.2.1⟩

/-- C1 counterexample: a session with status EXPIRED but expiresAt in the
future (the exact state produced by the force-expire path of createSession)
is returned live by getSession, and processMessage persists a message
against it — getSession never consults status. -/
theorem C1_counterexample :
    c1Session.status = SessionStatus.EXPIRED ∧
    10 < c1Session.expiresAt ∧
    (SessionsService.getSession 10 [c1Session] emptyRedis "s1").1 =
      Except.ok (some c1Session) ∧
    (ChatService.processMessage
        { sessionId := "s1", content := "hello", role := MessageRole.USER }
        10 [c1Session] emptyRedis [] "m1").2.2.2 =
      [{ id := "m1", sessionId := "s1", role := MessageRole.USER,
         content := "hello", metadata := "", timestamp := 10 }] := by
  refine ⟨rfl, by decide, rfl, rfl⟩

/-- C1 (amended): a session whose expiresAt is in the past — in particular
an EXPIRED one — is invisible: getSession returns null and processMessage
fails with "Session not found or expired" without persisting a message.  An
EXPIRED session whose expiresAt is still in the future is, however, served
live (see the counterexample): getSession checks only expiresAt, not status. -/
theorem C1_expired_invisible_when_stale (now : Nat) (db : List Session)
    (r : Redis) (sessionId : String) (s : Session)
    (hfind : SessionRepository.findById db sessionId = some s)
    (_hstatus : s.status = SessionStatus.EXPIRED)
    (hpast : s.expiresAt < now) :
    (SessionsService.getSession now db r sessionId).1 = Except.ok none ∧
    (∀ (payload : ChatMessageDto) (msgs : List ConversationMessage) (newId : String),
      payload.sessionId = sessionId →
        (ChatService.processMessage payload now db r msgs newId).1 =
          Except.error (CustomException.notFound "Session not found or expired") ∧
        (ChatService.processMessage payload now db r msgs newId).2.2.2 = msgs) := by
  have hexp : SessionsService.isSessionExpired now s = true := decide_eq_true hpast
  constructor
  · rw [getSession_found_expired now db r sessionId s hfind hexp]
  · intro payload msgs newId hpid
    unfold ChatService.processMessage
    rw [hpid, getSession_found_expired now db r sessionId s hfind hexp]
    exact ⟨rfl, rfl⟩

/-- C1 witness: an EXPIRED session with past expiresAt is invisible and
rejects messages. -/
theorem C1_witness :
    (SessionsService.getSession 10 [c1PastSession] emptyRedis "s9").1 =
      Except.ok none ∧
    (ChatService.processMessage
        { sessionId := "s9", content := "hi", role := MessageRole.USER }
        10 [c1PastSession] emptyRedis [] "m1").2.2.2 =
      ([] : List ConversationMessage) := by
  have h := C1_expired_invisible_when_stale 10 [c1PastSession] emptyRedis "s9"
    c1PastSession rfl rfl (by decide)
  exact ⟨h.1,
    (h.2 { sessionId := "s9", content := "hi", role := MessageRole.USER } [] "m1" rfl).2⟩

/- Cache-independence lemmas: the returned value and the store component of
every lifecycle operation do not depend on the cache state at all. -/

theorem expireSession_cache_indep (db : List Session) (id : String) (r₁ r₂ : Redis) :
    (SessionsService.expireSession db r₁ id).1 = (SessionsService.expireSession db r₂ id).1 ∧
    (SessionsService.expireSession db r₁ id).2.1 = (SessionsService.expireSession db r₂ id).2.1 := by
  unfold SessionsService.expireSession
  cases SessionRepository.update db id { status := some SessionStatus.EXPIRED } with
  | error e => exact ⟨rfl, rfl⟩
  | ok p =>
    obtain ⟨s', db'⟩ := p
    exact ⟨rfl, rfl⟩

theorem getSession_cache_indep (now : Nat) (db : List Session) (id : String)
    (r₁ r₂ : Redis) :
    (SessionsService.getSession now db r₁ id).1 = (SessionsService.getSession now db r₂ id).1 ∧
    (SessionsService.getSession now db r₁ id).2.1 = (SessionsService.getSession now db r₂ id).2.1 := by
  cases hf : SessionRepository.findById db id with
  | none =>
    rw [getSession_not_found now db r₁ id hf, getSession_not_found now db r₂ id hf]
    exact ⟨rfl, rfl⟩
  | some s =>
    cases hexp : SessionsService.isSessionExpired now s with
    | false =>
      rw [getSession_found_live now db r₁ id s hf hexp,
        getSession_found_live now db r₂ id s hf hexp]
      exact ⟨rfl, rfl⟩
    | true =>
      rw [getSession_found_expired now db r₁ id s hf hexp,
        getSession_found_expired now db r₂ id s hf hexp]
      exact ⟨rfl, rfl⟩

theorem updateSessionActivity_cache_indep (now : Nat) (db : List Session)
    (id : String) (r₁ r₂ : Redis) :
    (SessionsService.updateSessionActivity now db r₁ id).1 =
      (SessionsService.updateSessionActivity now db r₂ id).1 ∧
    (SessionsService.updateSessionActivity now db r₁ id).2.1 =
      (SessionsService.updateSessionActivity now db r₂ id).2.1 := by
  unfold SessionsService.updateSessionActivity SessionRepository.updateLastActivity
  cases SessionRepository.update db id { lastActivity := some now } with
  | error e => exact ⟨rfl, rfl⟩
  | ok p =>
    obtain ⟨s', db'⟩ := p
    exact ⟨rfl, rfl⟩

theorem updateSessionContext_cache_indep (db : List Session) (id ctx : String)
    (r₁ r₂ : Redis) :
    (SessionsService.updateSessionContext db r₁ id ctx).1 =
      (SessionsService.updateSessionContext db r₂ id ctx).1 ∧
    (SessionsService.updateSessionContext db r₁ id ctx).2.1 =
      (SessionsService.updateSessionContext db r₂ id ctx).2.1 := by
  unfold SessionsService.updateSessionContext
  cases SessionRepository.update db id { context := some ctx } with
  | error e => exact ⟨rfl, rfl⟩
  | ok p =>
    obtain ⟨s', db'⟩ := p
    exact ⟨rfl, rfl⟩

theorem deleteSession_cache_indep (db : List Session) (id : String) (r₁ r₂ : Redis) :
    (SessionsService.deleteSession db r₁ id).1 = (SessionsService.deleteSession db r₂ id).1 ∧
    (SessionsService.deleteSession db r₁ id).2.1 = (SessionsService.deleteSession db r₂ id).2.1 := by
  unfold SessionsService.deleteSession
  cases SessionRepository.delete db id with
  | error e => exact ⟨rfl, rfl⟩
  | ok db' => exact ⟨rfl, rfl⟩

theorem cleanup_cache_indep (now : Nat) (db : List Session) (r₁ r₂ : Redis) :
    (SessionsService.cleanupExpiredSessions now db r₁).1 =
      (SessionsService.cleanupExpiredSessions now db r₂).1 ∧
    (SessionsService.cleanupExpiredSessions now db r₁).2.1 =
      (SessionsService.cleanupExpiredSessions now db r₂).2.1 := by
  unfold SessionsService.cleanupExpiredSessions
  by_cases he : (SessionRepository.findExpiredSessions db now).isEmpty = true
  · simp [he]
  · simp [he]

theorem createSession_cache_indep (cfg : SessionConfig) (now : Nat)
    (db : List Session) (userId : Option String) (data : Option CreateSessionDto)
    (newId : String) (r₁ r₂ : Redis) :
    (SessionsService.createSession cfg now db r₁ userId data newId).1 =
      (SessionsService.createSession cfg now db r₂ userId data newId).1 ∧
    (SessionsService.createSession cfg now db r₁ userId data newId).2.1 =
      (SessionsService.createSession cfg now db r₂ userId data newId).2.1 := by
  unfold SessionsService.createSession SessionsService.expireSession
  cases userId with
  | none => exact ⟨rfl, rfl⟩
  | some uid =>
    by_cases hcap : cfg.maxActiveSessions ≤
        (SessionRepository.findActiveByUserId db uid now).length
    · cases hlast : (SessionRepository.findActiveByUserId db uid now).getLast? with
      | none =>
        simp only [if_pos hcap, hlast]
        trivial
      | some oldest =>
        cases hupd : SessionRepository.update db oldest.id
            { status := some SessionStatus.EXPIRED } with
        | error e =>
          simp only [if_pos hcap, hlast, hupd]
          trivial
        | ok p =>
          obtain ⟨s', db'⟩ := p
          simp only [if_pos hcap, hlast, hupd]
          trivial
    · simp only [if_neg hcap]
      trivial

/-- C7: for every Lifecycle Manager operation and every input, the returned
value and the resulting durable-store state are identical for any two cache
states — in particular with the cache entirely broken — so a cache failure
is never surfaced as an error to the caller. -/
theorem C7_cache_disabled_equivalent (now : Nat) (db : List Session)
    (r₁ r₂ : Redis) (cfg : SessionConfig) (id ctx : String)
    (userId : Option String) (data : Option CreateSessionDto) (newId : String) :
    ((SessionsService.getSession now db r₁ id).1 =
        (SessionsService.getSession now db r₂ id).1 ∧
      (SessionsService.getSession now db r₁ id).2.1 =
        (SessionsService.getSession now db r₂ id).2.1) ∧
    ((SessionsService.createSession cfg now db r₁ userId data newId).1 =
        (SessionsService.createSession cfg now db r₂ userId data newId).1 ∧
      (SessionsService.createSession cfg now db r₁ userId data newId).2.1 =
        (SessionsService.createSession cfg now db r₂ userId data newId).2.1) ∧
    ((SessionsService.updateSessionActivity now db r₁ id).1 =
        (SessionsService.updateSessionActivity now db r₂ id).1 ∧
      (SessionsService.updateSessionActivity now db r₁ id).2.1 =
        (SessionsService.updateSessionActivity now db r₂ id).2.1) ∧
    ((SessionsService.updateSessionContext db r₁ id ctx).1 =
        (SessionsService.updateSessionContext db r₂ id ctx).1 ∧
      (SessionsService.updateSessionContext db r₁ id ctx).2.1 =
        (SessionsService.updateSessionContext db r₂ id ctx).2.1) ∧
    ((SessionsService.expireSession db r₁ id).1 =
        (SessionsService.expireSession db r₂ id).1 ∧
      (SessionsService.expireSession db r₁ id).2.1 =
        (SessionsService.expireSession db r₂ id).2.1) ∧
    ((SessionsService.deleteSession db r₁ id).1 =
        (SessionsService.deleteSession db r₂ id).1 ∧
      (SessionsService.deleteSession db r₁ id).2.1 =
        (SessionsService.deleteSession db r₂ id).2.1) ∧
    ((SessionsService.cleanupExpiredSessions now db r₁).1 =
        (SessionsService.cleanupExpiredSessions now db r₂).1 ∧
      (SessionsService.cleanupExpiredSessions now db r₁).2.1 =
        (SessionsService.cleanupExpiredSessions now db r₂).2.1) :=
  ⟨getSession_cache_indep now db id r₁ r₂,
   createSession_cache_indep cfg now db userId data newId r₁ r₂,
   updateSessionActivity_cache_indep now db id r₁ r₂,
   updateSessionContext_cache_indep db id ctx r₁ r₂,
   expireSession_cache_indep db id r₁ r₂,
   deleteSession_cache_indep db id r₁ r₂,
   cleanup_cache_indep now db r₁ r₂⟩

/- ------------------------------------------------------------------ -/
/- C5: empty-content validation                                        -/
/- ------------------------------------------------------------------ -/

/-- C5 counterexample: a whitespace-only message (empty after trimming)
sent through the real-time path processMessage is persisted as-is rather
than rejected — processMessage performs only null-checks on content. -/
theorem C5_counterexample :
    jsTrim " " = "" ∧
    (ChatService.processMessage
        { sessionId := "s5", content := " ", role := MessageRole.USER }
        10 [c5Session] emptyRedis [] "m1").2.2.2 =
      [{ id := "m1", sessionId := "s5", role := MessageRole.USER, content := " ",
         metadata := "", timestamp := 10 }] := ⟨rfl, rfl⟩

/-- C5 (amended): ConversationService.appendMessage rejects content that is
empty after trimming with a BAD_REQUEST InvalidArgument-class error and
persists nothing, and for non-empty content against an existing session it
persists the trimmed content; ChatService.processMessage, however, performs
only null-checks: given a live session it persists the content untrimmed,
including content that is empty after trimming. -/
theorem C5_append_validates_empty_content (params : AppendMessageParams)
    (msgs : List ConversationMessage) (db : List Session) (newId : String)
    (now : Nat) :
    (jsTrim params.content = "" →
      (ConversationService.appendMessage params msgs db newId now).1 =
        Except.error (CustomException.new "INVALID_ARGUMENT"
          "Message content must not be empty") ∧
      (ConversationService.appendMessage params msgs db newId now).2 = msgs) ∧
    (jsTrim params.content ≠ "" →
      ∀ s, SessionRepository.findById db params.sessionId = some s →
        (ConversationService.appendMessage params msgs db newId now).1 =
          Except.ok { id := newId, sessionId := params.sessionId,
                      role := params.role, content := jsTrim params.content,
                      metadata := params.metadata.getD "", timestamp := now } ∧
        (ConversationService.appendMessage params msgs db newId now).2 =
          msgs ++ [{ id := newId, sessionId := params.sessionId,
                     role := params.role, content := jsTrim params.content,
                     metadata := params.metadata.getD "", timestamp := now }]) ∧
    (∀ (payload : ChatMessageDto) (r : Redis) (s : Session),
      SessionRepository.findById db payload.sessionId = some s →
      SessionsService.isSessionExpired now s = false →
        (ChatService.processMessage payload now db r msgs newId).1 =
          Except.ok { id := newId, sessionId := payload.sessionId,
                      role := payload.role, content := payload.content,
                      metadata := payload.metadata.getD "", timestamp := now } ∧
        (ChatService.processMessage payload now db r msgs newId).2.2.2 =
          msgs ++ [{ id := newId, sessionId := payload.sessionId,
                     role := payload.role, content := payload.content,
                     metadata := payload.metadata.getD "", timestamp := now }]) := by
  refine ⟨?_, ?_, ?_⟩
  · intro he
    unfold ConversationService.appendMessage Assert.notEmpty
    simp only [he, if_pos]
    trivial
  · intro hne s hs
    unfold ConversationService.appendMessage Assert.notEmpty
    simp only [if_neg hne]
    unfold ConversationRepository.create
    simp only [hs]
    trivial
  · intro payload r s hs hlive
    unfold ChatService.processMessage
    simp only [getSession_found_live now db r payload.sessionId s hs hlive]
    simp only [updateSessionActivity_found now db
      (SessionsService.cacheSession (SessionsService.getCachedSession now r
        payload.sessionId).2 s) payload.sessionId s hs]
    unfold ConversationRepository.create
    simp only [findById_after_replace db payload.sessionId s
      { s with lastActivity := now } hs rfl]
    trivial

/-- C5 witness: appendMessage rejects whitespace-only content without
persisting, and accepts non-empty content. -/
theorem C5_witness :
    (ConversationService.appendMessage
        { sessionId := "s5", content := "  ", role := MessageRole.USER }
        [] [c5Session] "m1" 10).1 =
      Except.error (CustomException.new "INVALID_ARGUMENT"
        "Message content must not be empty") ∧
    (ConversationService.appendMessage
        { sessionId := "s5", content := " hi ", role := MessageRole.USER }
        [] [c5Session] "m1" 10).1 =
      Except.ok { id := "m1", sessionId := "s5", role := MessageRole.USER,
                  content := "hi", metadata := "", timestamp := 10 } := by
  refine ⟨((C5_append_validates_empty_content
      { sessionId := "s5", content := "  ", role := MessageRole.USER }
      [] [c5Session] "m1" 10).1 rfl).1, ?_⟩
  have h := ((C5_append_validates_empty_content
      { sessionId := "s5", content := " hi ", role := MessageRole.USER }
      [] [c5Session] "m1" 10).2.1 (by decide) c5Session rfl).1
  exact h

/- ------------------------------------------------------------------ -/
/- C6: the periodic sweep                                              -/
/- ------------------------------------------------------------------ -/

theorem find?_filter_none {α : Type} (p q : α → Bool) (l : List α)
    (h : l.find? p = none) : (l.filter q).find? p = none :=
  List.find?_eq_none.mpr (fun x hx => List.find?_eq_none.mp h x (List.mem_filter.mp hx).1)

theorem get_remove_none_of_none (r : Redis) (i key : String)
    (hb : r.broken = false) (hnone : r.get key = .ok none) :
    (SessionsService.removeCachedSession r i).get key = .ok none := by
  have hfind : r.entries.find? (fun p => p.1 == key) = none := by
    unfold Redis.get at hnone
    simp only [hb, Bool.false_eq_true, if_false, Except.ok.injEq] at hnone
    exact Option.map_eq_none'.mp hnone
  unfold SessionsService.removeCachedSession Redis.del Redis.get
  simp [hb, find?_filter_none _ _ _ hfind]

theorem foldl_remove_broken (ids : List String) (r : Redis) :
    (ids.foldl SessionsService.removeCachedSession r).broken = r.broken := by
  induction ids generalizing r with
  | nil => rfl
  | cons i rest ih => rw [List.foldl_cons, ih, removeCachedSession_broken]

theorem get_foldl_remove_none (ids : List String) (r : Redis) (key : String)
    (hb : r.broken = false) (hnone : r.get key = .ok none) :
    (ids.foldl SessionsService.removeCachedSession r).get key = .ok none := by
  induction ids generalizing r with
  | nil => exact hnone
  | cons i rest ih =>
    rw [List.foldl_cons]
    exact ih _ (by rw [removeCachedSession_broken]; exact hb)
      (get_remove_none_of_none r i key hb hnone)

theorem get_foldl_remove_mem (ids : List String) (r : Redis) (i : String)
    (hb : r.broken = false) (hmem : i ∈ ids) :
    (ids.foldl SessionsService.removeCachedSession r).get
      (SessionsService.getCacheKey i) = .ok none := by
  induction ids generalizing r with
  | nil => cases hmem
  | cons j rest ih =>
    rw [List.foldl_cons]
    rcases List.mem_cons.mp hmem with rfl | hmem'
    · exact get_foldl_remove_none rest _ _
        (by rw [removeCachedSession_broken]; exact hb)
        (get_removeCachedSession_self r i hb)
    · exact ih _ (by rw [removeCachedSession_broken]; exact hb) hmem'

theorem markExpired_id_preserved (ids : List String) (t : Session) :
    ((fun s => if ids.contains s.id then { s with status := SessionStatus.EXPIRED }
      else s) t).id = t.id := by
  dsimp only
  by_cases h : ids.contains t.id = true
  · rw [if_pos h]
  · rw [if_neg h]

/-- C6 counterexample: a session in status INACTIVE (not ACTIVE) with past
expiresAt is also transitioned to EXPIRED by the sweep — the store query
filters on status ≠ EXPIRED, not status = ACTIVE. -/
theorem C6_counterexample :
    c6Session.status ≠ SessionStatus.ACTIVE ∧
    (SessionsService.cleanupExpiredSessions 10 [c6Session] emptyRedis).1 = 1 ∧
    SessionRepository.findById
        (SessionsService.cleanupExpiredSessions 10 [c6Session] emptyRedis).2.1 "s6" =
      some { c6Session with status := SessionStatus.EXPIRED } := by
  refine ⟨by decide, rfl, rfl⟩

/-- C6 (amended): the sweep transitions to EXPIRED exactly the sessions
whose status is not EXPIRED (ACTIVE or INACTIVE) and whose expiresAt is in
the past, leaves every other session unchanged, invalidates the cache
entries of the transitioned sessions, and returns their count. -/
theorem C6_sweep_marks_past_nonexpired (now : Nat) (db : List Session)
    (r : Redis) (hnodup : (db.map (·.id)).Nodup) :
    (SessionsService.cleanupExpiredSessions now db r).1 =
      (SessionRepository.findExpiredSessions db now).length ∧
    (∀ s ∈ db, s.expiresAt < now → s.status ≠ SessionStatus.EXPIRED →
      SessionRepository.findById
          (SessionsService.cleanupExpiredSessions now db r).2.1 s.id =
        some { s with status := SessionStatus.EXPIRED }) ∧
    (∀ s ∈ db, ¬(s.expiresAt < now ∧ s.status ≠ SessionStatus.EXPIRED) →
      SessionRepository.findById
          (SessionsService.cleanupExpiredSessions now db r).2.1 s.id = some s) ∧
    (r.broken = false →
      ∀ s ∈ db, s.expiresAt < now → s.status ≠ SessionStatus.EXPIRED →
        ((SessionsService.cleanupExpiredSessions now db r).2.2).get
          (SessionsService.getCacheKey s.id) = Except.ok none) := by
  have hmemP : ∀ s ∈ db, s.expiresAt < now → s.status ≠ SessionStatus.EXPIRED →
      s ∈ SessionRepository.findExpiredSessions db now := by
    intro s hs hpast hstat
    unfold SessionRepository.findExpiredSessions
    exact List.mem_filter.mpr ⟨hs, by simp [hpast, hstat]⟩
  by_cases he : (SessionRepository.findExpiredSessions db now).isEmpty = true
  · have hnil : SessionRepository.findExpiredSessions db now = [] :=
      List.isEmpty_iff.mp he
    have hred : SessionsService.cleanupExpiredSessions now db r = (0, db, r) := by
      unfold SessionsService.cleanupExpiredSessions
      simp only [he, if_pos]
    rw [hred]
    refine ⟨by rw [hnil]; rfl, ?_, ?_, ?_⟩
    · intro s hs hpast hstat
      have := hmemP s hs hpast hstat
      rw [hnil] at this
      cases this
    · intro s hs _
      exact findById_of_mem_nodup db s hs hnodup
    · intro _ s hs hpast hstat
      have := hmemP s hs hpast hstat
      rw [hnil] at this
      cases this
  · have hred : SessionsService.cleanupExpiredSessions now db r =
        ((SessionRepository.findExpiredSessions db now).length,
         SessionRepository.markExpired db
           ((SessionRepository.findExpiredSessions db now).map (·.id)),
         ((SessionRepository.findExpiredSessions db now).map (·.id)).foldl
           SessionsService.removeCachedSession r) := by
      unfold SessionsService.cleanupExpiredSessions
      simp only [he, Bool.false_eq_true, if_false]
    rw [hred]
    have hmapped : ∀ id', SessionRepository.findById
        (SessionRepository.markExpired db
          ((SessionRepository.findExpiredSessions db now).map (·.id))) id' =
        (SessionRepository.findById db id').map
          (fun s => if ((SessionRepository.findExpiredSessions db now).map (·.id)).contains s.id
            then { s with status := SessionStatus.EXPIRED } else s) := by
      intro id'
      unfold SessionRepository.markExpired
      exact findById_map_of_id_preserved db _ (markExpired_id_preserved _) id'
    refine ⟨rfl, ?_, ?_, ?_⟩
    · intro s hs hpast hstat
      rw [hmapped s.id, findById_of_mem_nodup db s hs hnodup]
      have hin : ((SessionRepository.findExpiredSessions db now).map (·.id)).contains s.id = true :=
        List.elem_iff.mpr (List.mem_map_of_mem (·.id) (hmemP s hs hpast hstat))
      simp only [Option.map_some']
      rw [if_pos hin]
    · intro s hs hnp
      rw [hmapped s.id, findById_of_mem_nodup db s hs hnodup]
      have hnotin : ¬ s.id ∈ (SessionRepository.findExpiredSessions db now).map (·.id) := by
        intro hin
        rcases List.mem_map.mp hin with ⟨t, htmem, htid⟩
        have htdb : t ∈ db := (List.mem_filter.mp htmem).1
        have hts : t = s :=
          List.inj_on_of_nodup_map hnodup htdb hs htid
        subst hts
        have hp := (List.mem_filter.mp htmem).2
        simp only [Bool.and_eq_true, decide_eq_true_eq] at hp
        exact hnp ⟨hp.1, hp.2⟩
      have hin : ¬ (((SessionRepository.findExpiredSessions db now).map (·.id)).contains s.id = true) :=
        fun hc => hnotin (List.elem_iff.mp hc)
      simp only [Option.map_some']
      rw [if_neg hin]
    · intro hb s hs hpast hstat
      exact get_foldl_remove_mem _ r s.id hb
        (List.mem_map_of_mem (·.id) (hmemP s hs hpast hstat))

/-- C6 witness. -/
theorem C6_witness :
    (SessionsService.cleanupExpiredSessions 10 [c6Session] emptyRedis).1 =
      (SessionRepository.findExpiredSessions [c6Session] 10).length ∧
    SessionRepository.findById
        (SessionsService.cleanupExpiredSessions 10 [c6Session] emptyRedis).2.1
        c6Session.id =
      some { c6Session with status := SessionStatus.EXPIRED } := by
  have h := C6_sweep_marks_past_nonexpired 10 [c6Session] emptyRedis (by simp)
  exact ⟨h.1, h.2.1 c6Session (by simp) (by decide) (by decide)⟩

/- ------------------------------------------------------------------ -/
/- C4: per-owner cap and forced eviction                               -/
/- ------------------------------------------------------------------ -/

/-- C4 counterexample: createSession with an absent ownerId fails, but with
a NOT_FOUND-class error (HTTP 404) — `Assert.notNull` always throws
`CustomException.notFound` — not an InvalidArgument-class (HTTP 400) error. -/
theorem C4_counterexample :
    (SessionsService.createSession defaultSessionConfig 0 [] emptyRedis
        none none "n1").1 =
      Except.error (CustomException.notFound "User ID is required") ∧
    (CustomException.notFound "User ID is required").httpStatus = 404 ∧
    (CustomException.notFound "User ID is required").httpStatus ≠ 400 := by
  refine ⟨rfl, rfl, by decide⟩

/-- C4 (amended): when the owner's live ACTIVE sessions have reached the
configured maximum, createSession force-expires exactly one session — the
least-recently-active one (minimal lastActivity) — and creates and returns
a new ACTIVE session; with an absent ownerId it fails with a NotFound-class
error (code NOT_FOUND, HTTP 404), not an InvalidArgument-class one. -/
theorem C4_cap_eviction (cfg : SessionConfig) (now : Nat) (db : List Session)
    (r : Redis) (uid : String) (data : Option CreateSessionDto) (newId : String)
    (hmax : 1 ≤ cfg.maxActiveSessions)
    (hcap : cfg.maxActiveSessions ≤
      (SessionRepository.findActiveByUserId db uid now).length)
    (hnodup : (db.map (·.id)).Nodup)
    (hfresh : ∀ t ∈ db, t.id ≠ newId) :
    (SessionsService.createSession cfg now db r none data newId).1 =
      Except.error (CustomException.notFound "User ID is required") ∧
    ∃ evicted : Session,
      (SessionRepository.findActiveByUserId db uid now).getLast? = some evicted ∧
      evicted ∈ db ∧
      evicted.userId = uid ∧
      evicted.status = SessionStatus.ACTIVE ∧
      (∀ x ∈ SessionRepository.findActiveByUserId db uid now,
        evicted.lastActivity ≤ x.lastActivity) ∧
      (SessionsService.createSession cfg now db r (some uid) data newId).1 =
        Except.ok { id := newId, userId := uid, status := SessionStatus.ACTIVE,
                    context := (data.bind (fun d => d.context)).getD "",
                    createdAt := now, lastActivity := now,
                    expiresAt := match data.bind (fun d => d.expiresAt) with
                      | some e => e
                      | none => SessionsService.calculateDefaultExpiration cfg now } ∧
      SessionRepository.findById
          (SessionsService.createSession cfg now db r (some uid) data newId).2.1
          evicted.id =
        some { evicted with status := SessionStatus.EXPIRED } ∧
      (∀ t ∈ db, t.id ≠ evicted.id →
        SessionRepository.findById
            (SessionsService.createSession cfg now db r (some uid) data newId).2.1
            t.id = some t) ∧
      SessionRepository.findById
          (SessionsService.createSession cfg now db r (some uid) data newId).2.1
          newId =
        some { id := newId, userId := uid, status := SessionStatus.ACTIVE,
               context := (data.bind (fun d => d.context)).getD "",
               createdAt := now, lastActivity := now,
               expiresAt := match data.bind (fun d => d.expiresAt) with
                 | some e => e
                 | none => SessionsService.calculateDefaultExpiration cfg now } := by
  refine ⟨rfl, ?_⟩
  have hne : SessionRepository.findActiveByUserId db uid now ≠ [] := by
    intro h0
    rw [h0] at hcap
    simp at hcap
    omega
  refine ⟨(SessionRepository.findActiveByUserId db uid now).getLast hne, ?_, ?_⟩
  · exact List.getLast?_eq_getLast _ hne
  have hlast : (SessionRepository.findActiveByUserId db uid now).getLast? =
      some ((SessionRepository.findActiveByUserId db uid now).getLast hne) :=
    List.getLast?_eq_getLast _ hne
  have hmemA : (SessionRepository.findActiveByUserId db uid now).getLast hne ∈
      SessionRepository.findActiveByUserId db uid now := List.getLast_mem hne
  have props := mem_active_props db uid now _ hmemA
  have hfindE : SessionRepository.findById db
      ((SessionRepository.findActiveByUserId db uid now).getLast hne).id =
      some ((SessionRepository.findActiveByUserId db uid now).getLast hne) :=
    findById_of_mem_nodup db _ props.1 hnodup
  have hred : SessionsService.createSession cfg now db r (some uid) data newId =
      (Except.ok { id := newId, userId := uid, status := SessionStatus.ACTIVE,
                   context := (data.bind (fun d => d.context)).getD "",
                   createdAt := now, lastActivity := now,
                   expiresAt := match data.bind (fun d => d.expiresAt) with
                     | some e => e
                     | none => SessionsService.calculateDefaultExpiration cfg now },
       (db.map (fun t =>
          if t.id == ((SessionRepository.findActiveByUserId db uid now).getLast hne).id
          then { (SessionRepository.findActiveByUserId db uid now).getLast hne with
                 status := SessionStatus.EXPIRED }
          else t)) ++
         [{ id := newId, userId := uid, status := SessionStatus.ACTIVE,
            context := (data.bind (fun d => d.context)).getD "",
            createdAt := now, lastActivity := now,
            expiresAt := match data.bind (fun d => d.expiresAt) with
              | some e => e
              | none => SessionsService.calculateDefaultExpiration cfg now }],
       SessionsService.cacheSession
         (SessionsService.removeCachedSession r
           ((SessionRepository.findActiveByUserId db uid now).getLast hne).id)
         { id := newId, userId := uid, status := SessionStatus.ACTIVE,
           context := (data.bind (fun d => d.context)).getD "",
           createdAt := now, lastActivity := now,
           expiresAt := match data.bind (fun d => d.expiresAt) with
             | some e => e
             | none => SessionsService.calculateDefaultExpiration cfg now }) := by
    unfold SessionsService.createSession
    simp only [if_pos hcap, hlast,
      expireSession_of_found db r _ _ hfindE]
  refine ⟨props.1, props.2.1, props.2.2.1,
    active_getLast?_minimal db uid now _ hlast, ?_, ?_, ?_, ?_⟩
  · rw [hred]
  · rw [hred, findById_append,
      findById_after_replace db _ _
        { (SessionRepository.findActiveByUserId db uid now).getLast hne with
          status := SessionStatus.EXPIRED } hfindE rfl]
    rfl
  · intro t ht htne
    rw [hred, findById_append,
      findById_after_replace_ne db _ t.id _
        { (SessionRepository.findActiveByUserId db uid now).getLast hne with
          status := SessionStatus.EXPIRED } hfindE rfl htne,
      findById_of_mem_nodup db t ht hnodup]
    rfl
  · have hpres : ∀ t : Session,
        ((fun t => if t.id == ((SessionRepository.findActiveByUserId db uid now).getLast hne).id
          then { (SessionRepository.findActiveByUserId db uid now).getLast hne with
                 status := SessionStatus.EXPIRED }
          else t) t).id = t.id :=
      update_replace_preserves_id _ _ rfl
    have h1 : SessionRepository.findById
        (db.map (fun t =>
          if t.id == ((SessionRepository.findActiveByUserId db uid now).getLast hne).id
          then { (SessionRepository.findActiveByUserId db uid now).getLast hne with
                 status := SessionStatus.EXPIRED }
          else t)) newId = none := by
      rw [findById_map_of_id_preserved db _ hpres newId,
        findById_eq_none_of_fresh db newId hfresh]
      rfl
    rw [hred, findById_append, h1]
    simp [SessionRepository.findById, List.find?]

/-- C4 witness: at the cap of one ACTIVE session, creating another evicts
the existing one and succeeds. -/
theorem C4_witness :
    (SessionsService.createSession w4Config 10 [w4Session] emptyRedis
        (some "u1") none "b1").1 =
      Except.ok { id := "b1", userId := "u1", status := SessionStatus.ACTIVE,
                  context := "", createdAt := 10, lastActivity := 10,
                  expiresAt := SessionsService.calculateDefaultExpiration w4Config 10 } ∧
    SessionRepository.findById
        (SessionsService.createSession w4Config 10 [w4Session] emptyRedis
          (some "u1") none "b1").2.1 "a1" =
      some { w4Session with status := SessionStatus.EXPIRED } := by
  obtain ⟨_, evicted, hlast, _, _, _, _, hok, hexp, _, _⟩ :=
    C4_cap_eviction w4Config 10 [w4Session] emptyRedis "u1" none "b1"
      (by decide) (by decide) (by simp)
      (by
        intro t ht
        rcases List.mem_singleton.mp ht with rfl
        decide)
  have hc : (SessionRepository.findActiveByUserId [w4Session] "u1" 10).getLast? =
      some w4Session := by decide
  rw [hc] at hlast
  have hev : w4Session = evicted := by
    simpa using hlast
  subst hev
  exact ⟨hok, hexp⟩

/- ------------------------------------------------------------------ -/
/- C8: room-join access control                                        -/
/- ------------------------------------------------------------------ -/

/-- C8: an authenticated connection that asks to join a live session owned
by a different principal receives exactly one error event, "Access denied
to session", addressed to that connection only (not a room broadcast); the
gateway neither disconnects the connection nor changes any room membership
or connection state. -/
theorem C8_join_access_denied (clientId sessionId : String) (now : Nat)
    (st : GatewayState) (db : List Session) (r : Redis)
    (msgs : List ConversationMessage) (conn : ChatConnectionData) (s : Session)
    (hconn : (st.connections.find? (fun p => p.1 == clientId)).map (·.2) = some conn)
    (hfind : SessionRepository.findById db sessionId = some s)
    (hlive : SessionsService.isSessionExpired now s = false)
    (howner : s.userId ≠ conn.userId) :
    (ChatGateway.handleJoinSession clientId sessionId now st db r msgs).1 = st ∧
    (ChatGateway.handleJoinSession clientId sessionId now st db r msgs).2.2.2.1 =
      [errorEmit clientId "Access denied to session"] ∧
    (ChatGateway.handleJoinSession clientId sessionId now st db r msgs).2.2.2.2 =
      ([] : List String) := by
  unfold ChatGateway.handleJoinSession
  simp only [hconn, getSession_found_live now db r sessionId s hfind hlive,
    if_pos howner]
  trivial

/-- C8 witness: connection of owner u2 asks to join u1's session s5 —
error event emitted, state (including room membership) unchanged, no
disconnect. -/
theorem C8_witness :
    (ChatGateway.handleJoinSession "c1" "s5" 10 w8State [c5Session] emptyRedis []).1 =
      w8State ∧
    (ChatGateway.handleJoinSession "c1" "s5" 10 w8State [c5Session] emptyRedis []).2.2.2.1 =
      [errorEmit "c1" "Access denied to session"] :=
  have h := C8_join_access_denied "c1" "s5" 10 w8State [c5Session] emptyRedis []
    { userId := "u2", connectedAt := 0, sessionId := none } c5Session rfl rfl rfl
    (by decide)
  ⟨h.1, h.2.1⟩
